import Mathlib

/-!
Verification of the adaptive metric-computation and fallback layer of the
flux_data repository, shallowly embedded from:

  * src/utils/data_loader.py      (class SalesDataLoader)
  * src/utils/adaptive_data_manager.py  (class AdaptiveDataManager)

Conventions of the embedding:

  * A sales transaction row is modelled in its enriched form (the branch of
    `compute_category_lifts` where the `category` and `zone_type` columns are
    present in the frame; the metadata-join branch produces the same enriched
    frame).  Python floats are modelled as exact rationals.
  * Python dicts that the code iterates or looks up are modelled as
    association lists with `List.lookup`; iteration order follows the
    source's literal dict order.
  * Python string operations used by the code (`str.lower`, `str.replace`
    with single-character patterns) are modelled character-wise on ASCII
    strings, which is what every zone/category label in the system is.
  * `round(x, d)` on Python floats is modelled as exact rational rounding to
    `d` decimal digits; no claim below depends on behaviour at half-way ties.
  * All model functions are total, mirroring the fact that the corresponding
    code paths cannot raise on the domains stated in the theorems (theorems
    that need it assume the configured `min_sample_size` is positive, as it
    is for every configuration the code ships: the default is 30).
-/

/-- One enriched sales transaction row: the required CSV columns of
`SalesDataLoader._validate_schema` plus the promotion flag and the
category / zone_type columns used by `compute_category_lifts`. -/
structure Row where
  product_id : String
  location_id : String
  units_sold : Int
  revenue : ℚ
  was_promoted : Bool
  category : String
  zone_type : String
  deriving DecidableEq, Repr

/-- Python `s.lower()` restricted to ASCII, applied character-wise. -/
def pyLower (s : String) : String :=
  String.mk (s.toList.map Char.toLower)

/-- Python `s.replace(a, b)` for a single-character pattern and a
single-character replacement. -/
def replaceChar (s : String) (a b : Char) : String :=
  String.mk (s.toList.map (fun c => if c = a then b else c))

/-- Python `s.replace(a, '')` for a single-character pattern: drops every
occurrence of the character. -/
def dropChar (s : String) (a : Char) : String :=
  String.mk (s.toList.filter (fun c => c ≠ a))

/-- Zone normalization used on the data side
(`pl.col('zone_type').str.to_lowercase().str.replace_all(' ', '')`,
data_loader.py lines 164 and 180): lowercase then remove spaces. -/
def normDataZone (s : String) : String :=
  dropChar (pyLower s) ' '

/-- Target-zone key used on the data side
(`zone_normalized = zone.replace('_', '')`, data_loader.py line 178). -/
def zoneKey (z : String) : String :=
  dropChar z '_'

/-- Query-side zone normalization of `AdaptiveDataManager.get_category_lift`
(`zone_normalized = zone.lower().replace(' ', '_')`, line 408). -/
def normQuery (z : String) : String :=
  replaceChar (pyLower z) ' ' '_'

/-- `baseline_zones = ['regular', 'regularshelf', 'midshelf']`
(data_loader.py line 153). -/
def baselineZones : List String :=
  ["regular", "regularshelf", "midshelf"]

/-- The target zones of the lift loop
(`for zone in ['endcap', 'checkout', 'eye_level']`, data_loader.py line 176). -/
def targetZones : List String :=
  ["endcap", "checkout", "eye_level"]

/-- The promotion filter of data_loader.py lines 148-149:
`enriched_df.filter(pl.col('was_promoted') == False)`. -/
def nonPromoted (rows : List Row) : List Row :=
  rows.filter (fun r => !r.was_promoted)

/-- Sum of the `units_sold` column of a frame. -/
def sumUnits (rows : List Row) : Int :=
  (rows.map (·.units_sold)).sum

/-- Polars `pl.col('units_sold').mean()` on a nonempty frame. -/
def meanUnits (rows : List Row) : ℚ :=
  (sumUnits rows : ℚ) / (rows.length : ℚ)

/-- Python `round(x, d)` modelled over exact rationals. -/
def roundTo (d : ℕ) (q : ℚ) : ℚ :=
  (round (q * (10 : ℚ) ^ d) : ℤ) / (10 : ℚ) ^ d

/-- `cat_data = enriched_df.filter(pl.col('category') == category)`
(data_loader.py line 158), over the already promotion-filtered frame. -/
def catRows (fr : List Row) (c : String) : List Row :=
  fr.filter (fun r => r.category == c)

/-- The baseline sub-frame of a category (data_loader.py lines 162-167):
rows whose normalized zone_type lies in `baseline_zones`. -/
def baselineRows (fr : List Row) (c : String) : List Row :=
  (catRows fr c).filter (fun r => baselineZones.contains (normDataZone r.zone_type))

/-- The baseline mean of data_loader.py lines 162-167: polars mean is `None`
on an empty frame, else the arithmetic mean of `units_sold`. -/
def baselineOfCore (fr : List Row) (c : String) : Option ℚ :=
  let bl := baselineRows fr c
  if bl.isEmpty then none else some (meanUnits bl)

/-- `zone_data` of data_loader.py lines 179-181: category rows whose
normalized zone_type equals the underscore-stripped target zone. -/
def zoneRowsCore (fr : List Row) (c z : String) : List Row :=
  (catRows fr c).filter (fun r => normDataZone r.zone_type == zoneKey z)

/-- One raw per-zone result of `SalesDataLoader.compute_category_lifts`
(data_loader.py lines 183-203). -/
structure RawZoneEntry where
  lift : Option ℚ
  confidence : String
  sample_size : ℕ
  source : String
  baseline_sales : Option ℚ
  zone_sales : Option ℚ
  deriving DecidableEq, Repr

/-- The body of the per-zone loop of data_loader.py lines 176-203, given the
category's baseline mean `b` (already known to be non-`None` and nonzero). -/
def rawEntryFor (fr : List Row) (c z : String) (b : ℚ) (minSample : ℕ) :
    RawZoneEntry :=
  let zd := zoneRowsCore fr c z
  if zd.length < minSample then
    { lift := none, confidence := "low", sample_size := zd.length,
      source := "insufficient_data", baseline_sales := none, zone_sales := none }
  else
    let zoneAvg := meanUnits zd
    let lift := if 0 < b then zoneAvg / b else 1
    { lift := some (roundTo 2 lift),
      confidence := if 150 ≤ zd.length then "high" else "medium",
      sample_size := zd.length,
      source := "computed",
      baseline_sales := some (roundTo 1 b),
      zone_sales := some (roundTo 1 zoneAvg) }

/-- The per-category body of data_loader.py lines 157-205: `none` when the
category is skipped (`baseline is None or baseline == 0`), else the
three-zone lift dict. -/
def catLiftsFor (fr : List Row) (c : String) (minSample : ℕ) :
    Option (List (String × RawZoneEntry)) :=
  match baselineOfCore fr c with
  | none => none
  | some b =>
      if b = 0 then none
      else some (targetZones.map (fun z => (z, rawEntryFor fr c z b minSample)))

/-- `SalesDataLoader.compute_category_lifts` over the promotion-filtered
frame: iterate the distinct categories of the frame, skipping the ones
without a usable baseline (data_loader.py lines 155-208). -/
def computeCategoryLiftsCore (fr : List Row) (minSample : ℕ) :
    List (String × List (String × RawZoneEntry)) :=
  ((fr.map (·.category)).dedup).filterMap
    (fun c => (catLiftsFor fr c minSample).map (fun v => (c, v)))

/-- `SalesDataLoader.compute_category_lifts` (data_loader.py lines 97-208):
filter out promoted rows, then compute per-category zone lifts. -/
def computeCategoryLifts (rows : List Row) (minSample : ℕ) :
    List (String × List (String × RawZoneEntry)) :=
  computeCategoryLiftsCore (nonPromoted rows) minSample

/-- The category baseline as the code computes it (after the promotion
filter); exposed for stating claims. -/
def baselineMean (rows : List Row) (c : String) : Option ℚ :=
  baselineOfCore (nonPromoted rows) c

/-- The observed (category, zone) sample count as the code computes it. -/
def zoneSampleCount (rows : List Row) (c z : String) : ℕ :=
  (zoneRowsCore (nonPromoted rows) c z).length

/-- `SalesDataLoader.compute_location_performance`
(data_loader.py lines 210-236): group by location, sum units, divide by the
cross-location mean, scale by 100, round to one decimal. -/
def computeLocationPerformance (rows : List Row) : List (String × ℚ) :=
  let ids := (rows.map (·.location_id)).dedup
  let totals := ids.map (fun l => (l, sumUnits (rows.filter (fun r => r.location_id == l))))
  let avg : ℚ := ((totals.map (fun p => (p.2 : ℚ))).sum) / (totals.length : ℚ)
  totals.map (fun p => (p.1, roundTo 1 (((p.2 : ℚ) / avg) * 100)))

/-- `AdaptiveDataManager.INDUSTRY_DEFAULTS`
(adaptive_data_manager.py lines 34-65), in the source's literal order. -/
def INDUSTRY_DEFAULTS : List (String × List (String × ℚ)) :=
  [("Beverages",
     [("endcap", 1.4), ("eye_level", 1.15), ("checkout", 1.3), ("low_shelf", 0.85)]),
   ("Snacks",
     [("endcap", 1.5), ("eye_level", 1.2), ("checkout", 1.7), ("low_shelf", 0.8)]),
   ("Dairy",
     [("endcap", 1.3), ("eye_level", 1.1), ("checkout", 1.0), ("low_shelf", 0.9)]),
   ("Bakery",
     [("endcap", 1.4), ("eye_level", 1.2), ("checkout", 0.9), ("low_shelf", 0.85)]),
   ("Personal Care",
     [("endcap", 1.2), ("eye_level", 1.15), ("checkout", 0.8), ("low_shelf", 0.9)])]

/-- The five known category names, in catalog order. -/
def catalogCategories : List String :=
  INDUSTRY_DEFAULTS.map (·.1)

/-- The zone loop of the resolver
(`for zone in ['endcap', 'eye_level', 'checkout', 'low_shelf']`,
adaptive_data_manager.py line 176). -/
def resolverZones : List String :=
  ["endcap", "eye_level", "checkout", "low_shelf"]

/-- One resolved (category, zone) value as stored in
`AdaptiveDataManager.category_lifts` and returned by `get_category_lift`. -/
structure LiftEntry where
  lift : Option ℚ
  source : String
  confidence : String
  sample_size : ℕ
  deriving DecidableEq, Repr

/-- The per-cell decision of `_compute_category_lifts_adaptive`
(adaptive_data_manager.py lines 177-197): keep a computed value whose
confidence is high or medium, else substitute the industry default, carrying
the observed sample size (`computed.get('sample_size', 0)`). -/
def resolveZone (computed : Option RawZoneEntry) (defaultLift : ℚ) : LiftEntry :=
  match computed with
  | some r =>
      if r.source == "computed" && (r.confidence == "high" || r.confidence == "medium") then
        { lift := r.lift, source := "computed", confidence := r.confidence,
          sample_size := r.sample_size }
      else
        { lift := some defaultLift, source := "industry_default",
          confidence := "low", sample_size := r.sample_size }
  | none =>
      { lift := some defaultLift, source := "industry_default",
        confidence := "low", sample_size := 0 }

/-- The all-defaults zone dict of adaptive_data_manager.py lines 200-207 and
212-220: every zone of the category's default row, `sample_size = 0`. -/
def allDefaults (defs : List (String × ℚ)) : List (String × LiftEntry) :=
  defs.map (fun p =>
    (p.1, { lift := some p.2, source := "industry_default",
            confidence := "low", sample_size := 0 }))

/-- The merge loop of adaptive_data_manager.py lines 174-197 for one category
that has computed data: resolve each of the four zones, defaulting the lift
to `INDUSTRY_DEFAULTS[category].get(zone, 1.0)`. -/
def mergeZones (cz : List (String × RawZoneEntry)) (defs : List (String × ℚ)) :
    List (String × LiftEntry) :=
  resolverZones.map (fun z => (z, resolveZone (cz.lookup z) ((defs.lookup z).getD 1)))

/-- The category loop of `_compute_category_lifts_adaptive` when sales data
exists (adaptive_data_manager.py lines 171-208). -/
def mergeWithDefaults (computed : List (String × List (String × RawZoneEntry))) :
    List (String × List (String × LiftEntry)) :=
  INDUSTRY_DEFAULTS.map (fun p =>
    (p.1, match computed.lookup p.1 with
          | some cz => mergeZones cz p.2
          | none => allDefaults p.2))

/-- The no-sales-data branch of `_compute_category_lifts_adaptive`
(adaptive_data_manager.py lines 209-220): all industry defaults. -/
def pureDefaults : List (String × List (String × LiftEntry)) :=
  INDUSTRY_DEFAULTS.map (fun p => (p.1, allDefaults p.2))

/-- `AdaptiveDataManager._compute_category_lifts_adaptive`
(adaptive_data_manager.py lines 145-222); `sales = none` models
`self.sales_loader is None`. -/
def adaptiveLifts (sales : Option (List Row)) (minSample : ℕ) :
    List (String × List (String × LiftEntry)) :=
  match sales with
  | some rows => mergeWithDefaults (computeCategoryLifts rows minSample)
  | none => pureDefaults

/-- The neutral record returned by `get_category_lift` for unknown categories
or unknown zones (adaptive_data_manager.py lines 400-405 and 423-428). -/
def fallbackEntry : LiftEntry :=
  { lift := some 1.0, source := "fallback", confidence := "low", sample_size := 0 }

/-- `AdaptiveDataManager.get_category_lift`
(adaptive_data_manager.py lines 386-428): look up the category, normalize the
zone (lowercase, spaces to underscores), try the normalized key, then the key
with underscores removed, else fall back to the neutral record.  (The entries
stored in `category_lifts` are nonempty dicts, so the Python truthiness test
`if result:` is the `some` case of the lookup.) -/
def getCategoryLift (lifts : List (String × List (String × LiftEntry)))
    (category zone : String) : LiftEntry :=
  match lifts.lookup category with
  | none => fallbackEntry
  | some zones =>
      let zn := normQuery zone
      match zones.lookup zn with
      | some r => r
      | none =>
          match zones.lookup (dropChar zn '_') with
          | some r => r
          | none => fallbackEntry

/-- The per-location metadata record built by `_load_location_metadata`
(adaptive_data_manager.py lines 285-292). -/
structure LocInfo where
  zone : String
  zone_name : String
  traffic_index : ℚ
  deriving DecidableEq, Repr

/-- The static `zone_performance` table of
`_get_default_location_performance` (adaptive_data_manager.py lines 237-245). -/
def zonePerformance : List (String × ℚ) :=
  [("endcap", 150), ("checkout", 160), ("eye_level", 120), ("regular", 100),
   ("regular_shelf", 100), ("low_shelf", 70), ("bottom_shelf", 60)]

/-- `AdaptiveDataManager._get_default_location_performance`
(adaptive_data_manager.py lines 224-252): per declared location, the static
index of its lowercased zone type, defaulting to 100. -/
def defaultLocationPerformance (meta : List (String × LocInfo)) :
    List (String × ℚ) :=
  meta.map (fun p => (p.1, (zonePerformance.lookup (pyLower p.2.zone)).getD 100))

/-- The location-performance branch of `compute_all_metrics`
(adaptive_data_manager.py lines 121-127): computed from sales when a loader
exists, else the zone-type defaults. -/
def locationPerformanceOf (sales : Option (List Row))
    (meta : List (String × LocInfo)) : List (String × ℚ) :=
  match sales with
  | some rows => computeLocationPerformance rows
  | none => defaultLocationPerformance meta

/-- `AdaptiveDataManager.get_location_performance`
(adaptive_data_manager.py lines 430-440):
`self.location_performance.get(location_id, 100.0)`. -/
def getLocationPerformance (perf : List (String × ℚ)) (locId : String) : ℚ :=
  (perf.lookup locId).getD 100

/-- The data-quality record of `_assess_data_quality`
(adaptive_data_manager.py lines 334-355). -/
structure DataQuality where
  quality_level : String
  confidence_score : ℚ
  recommendation : String
  deriving DecidableEq, Repr

/-- `AdaptiveDataManager._get_quality_recommendation`
(adaptive_data_manager.py lines 357-365). -/
def qualityRecommendation (q : String) : String :=
  (([("excellent", "Data quality is excellent. Recommendations are highly reliable."),
     ("good", "Data quality is good. Recommendations are reliable."),
     ("fair", "Data quality is fair. Consider collecting more data for better accuracy."),
     ("poor", "Data quality is poor. Using mostly industry defaults. Collect more sales data for better recommendations.")]
    : List (String × String)).lookup q).getD "Unknown quality level"

/-- `AdaptiveDataManager._assess_data_quality`
(adaptive_data_manager.py lines 334-355) as a function of the total
transaction count. -/
def assessDataQuality (total : ℕ) : DataQuality :=
  if 3000 ≤ total then
    { quality_level := "excellent", confidence_score := 0.95,
      recommendation := qualityRecommendation "excellent" }
  else if 1000 ≤ total then
    { quality_level := "good", confidence_score := 0.85,
      recommendation := qualityRecommendation "good" }
  else if 500 ≤ total then
    { quality_level := "fair", confidence_score := 0.70,
      recommendation := qualityRecommendation "fair" }
  else
    { quality_level := "poor", confidence_score := 0.50,
      recommendation := qualityRecommendation "poor" }

/-- The `data_quality` field of `_generate_metadata`
(adaptive_data_manager.py lines 304-309): present exactly when a sales loader
exists, assessed from `total_transactions = len(self.df)`. -/
def dataQualityMeta (sales : Option (List Row)) : Option DataQuality :=
  sales.map (fun rows => assessDataQuality rows.length)

/-- The required CSV columns of `SalesDataLoader._validate_schema`
(data_loader.py lines 47-52). -/
def requiredColumns : List String :=
  ["product_id", "location_id", "units_sold", "revenue"]

/-- A raw sales CSV as the loader sees it: a header and its rows. -/
structure SalesCSV where
  columns : List String
  rows : List Row
  deriving DecidableEq, Repr

/-- `SalesDataLoader._validate_schema` (data_loader.py lines 45-71): raise
(`ValueError`, modelled as `Except.error`) naming the missing required
columns, else succeed.  The check inspects column names only; row values are
never examined. -/
def validateSchema (t : SalesCSV) : Except (List String) Unit :=
  let missing := requiredColumns.filter (fun c => !t.columns.contains c)
  if missing.isEmpty then Except.ok () else Except.error missing

/-- The guarded loader construction of `AdaptiveDataManager.__init__`
(adaptive_data_manager.py lines 90-99): any loader failure — including a
schema error — is caught and the manager proceeds with `sales_loader = None`. -/
def initSalesLoader (csv : Option SalesCSV) : Option SalesCSV :=
  match csv with
  | none => none
  | some t =>
      match validateSchema t with
      | Except.ok _ => some t
      | Except.error _ => none

/-- The default lift the resolver substitutes for a known category:
`INDUSTRY_DEFAULTS[category].get(zone, 1.0)`
(adaptive_data_manager.py line 190). -/
def defaultLiftFor (c z : String) : ℚ :=
  (((INDUSTRY_DEFAULTS.lookup c).getD []).lookup z).getD 1

/-- The raw loader entry for a (category, zone) cell as seen by the resolver:
`compute_category_lifts(...)[category][zone]` when both keys exist. -/
def rawLiftEntry (rows : List Row) (minSample : ℕ) (c z : String) :
    Option RawZoneEntry :=
  ((computeCategoryLifts rows minSample).lookup c).bind (fun zs => zs.lookup z)

/-- The zone-string identity asserted by the spec ("normalizes the zone
argument for case, spaces, and underscores"): lowercase, drop spaces, drop
underscores.  Stated from the spec's words, for comparison with the code's
two (different) normalizations. -/
def normCaseSpaceUnderscore (s : String) : String :=
  dropChar (dropChar (pyLower s) ' ') '_'

/-- A convenience constructor for concrete transaction rows used in the
witnesses and counterexamples below. -/
def mkRow (pid lid : String) (u : Int) (promo : Bool) (c z : String) : Row :=
  { product_id := pid, location_id := lid, units_sold := u,
    revenue := 5, was_promoted := promo, category := c, zone_type := z }

/-- The spec's Dairy/checkout scenario: 5 baseline (regular-shelf) Dairy
rows averaging 10 units and exactly 10 non-promoted Dairy/checkout rows,
below the default `min_sample_size = 30`. -/
def dairyRows : List Row :=
  List.replicate 5 (mkRow "P1" "L1" 10 false "Dairy" "regular") ++
  List.replicate 10 (mkRow "P1" "L2" 20 false "Dairy" "checkout")

/-- Plenty of Dairy data (50 endcap rows), but no baseline-zone rows at all. -/
def noBaseRows : List Row :=
  List.replicate 50 (mkRow "P3" "L3" 40 false "Dairy" "endcap")

/-- A non-promoted anchor row shared by the promotion datasets. -/
def promoBase : Row := mkRow "P1" "L1" 100 false "Dairy" "regular"

/-- A dataset whose only promoted transaction sold 10 units at L2. -/
def promoD1 : List Row := [promoBase, mkRow "P2" "L2" 10 true "Dairy" "endcap"]

/-- The same dataset except the promoted transaction sold 30 units. -/
def promoD2 : List Row := [promoBase, mkRow "P2" "L2" 30 true "Dairy" "endcap"]

/-- A row with negative `units_sold`. -/
def negRow : Row := mkRow "P1" "L1" (-5) false "Dairy" "regular"

/-- A CSV with all required columns whose single row has negative units. -/
def negCSV : SalesCSV :=
  { columns := ["product_id", "location_id", "units_sold", "revenue", "was_promoted"],
    rows := [negRow] }

/-- A CSV missing the required `revenue` column. -/
def missingCSV : SalesCSV :=
  { columns := ["product_id", "location_id", "units_sold"], rows := [] }

/-- Location metadata declaring L005 as an endcap location. -/
def locMeta1 : List (String × LocInfo) :=
  [("L005", { zone := "endcap", zone_name := "End Cap Display", traffic_index := 150 })]

section LookupLemmas

variable {α β γ : Type} [BEq α] [LawfulBEq α]

/-- Looking a key up in a map built by transforming the values of an
association list keyed by the same keys. -/
theorem lookup_map_keyed (l : List (α × β)) (f : α → β → γ) (c : α) :
    (l.map (fun p => (p.1, f p.1 p.2))).lookup c = (l.lookup c).map (f c) := by
  induction l with
  | nil => rfl
  | cons hd tl ih =>
      obtain ⟨k, v⟩ := hd
      cases hck : c == k with
      | true =>
          have : c = k := eq_of_beq hck
          simp only [List.map_cons, List.lookup, this, beq_self_eq_true,
            Option.map_some']
      | false => simp only [List.map_cons, List.lookup, hck, ih]

/-- Looking up a key that occurs in the key list of a map of the form
`ks.map (fun k => (k, g k))`. -/
theorem lookup_map_self (ks : List α) (g : α → β) (z : α) (hz : z ∈ ks) :
    (ks.map (fun k => (k, g k))).lookup z = some (g z) := by
  induction ks with
  | nil => cases hz
  | cons hd tl ih =>
      cases hck : z == hd with
      | true =>
          have : z = hd := eq_of_beq hck
          simp only [List.map_cons, List.lookup, this, beq_self_eq_true]
      | false =>
          rcases List.mem_cons.mp hz with h1 | h1
          · rw [h1] at hck; simp at hck
          · simp only [List.map_cons, List.lookup, hck]
            exact ih h1

/-- Looking up a key absent from the key list of a map of the form
`ks.map (fun k => (k, g k))`. -/
theorem lookup_map_self_none (ks : List α) (g : α → β) (z : α) (hz : z ∉ ks) :
    (ks.map (fun k => (k, g k))).lookup z = none := by
  induction ks with
  | nil => rfl
  | cons hd tl ih =>
      cases hck : z == hd with
      | true =>
          exact absurd (eq_of_beq hck ▸ List.mem_cons_self _ _) hz
      | false =>
          simp only [List.map_cons, List.lookup, hck]
          exact ih (fun h => hz (List.mem_cons_of_mem _ h))

/-- Lookup in a key-tagged `filterMap`: keys outside the key list are absent. -/
theorem lookup_filterMap_keyed_none (ks : List α) (h : α → Option β) (c : α)
    (hc : c ∉ ks) :
    (ks.filterMap (fun k => (h k).map (fun v => (k, v)))).lookup c = none := by
  induction ks with
  | nil => rfl
  | cons hd tl ih =>
      have htl : c ∉ tl := fun ht => hc (List.mem_cons_of_mem _ ht)
      have hck : (c == hd) = false :=
        beq_eq_false_iff_ne.mpr (fun he => hc (he ▸ List.mem_cons_self _ _))
      cases hh : h hd with
      | none => simpa only [List.filterMap_cons, hh, Option.map_none] using ih htl
      | some v =>
          simp only [List.filterMap_cons, hh, Option.map_some, List.lookup, hck]
          exact ih htl

/-- Lookup in a key-tagged `filterMap` over a duplicate-free key list. -/
theorem lookup_filterMap_keyed (ks : List α) (h : α → Option β) (c : α)
    (hnd : ks.Nodup) (hc : c ∈ ks) :
    (ks.filterMap (fun k => (h k).map (fun v => (k, v)))).lookup c = h c := by
  induction ks with
  | nil => cases hc
  | cons hd tl ih =>
      have hndtl : tl.Nodup := (List.nodup_cons.mp hnd).2
      by_cases he : c = hd
      · subst he
        have hout : c ∉ tl := (List.nodup_cons.mp hnd).1
        cases hh : h c with
        | none =>
            simp only [List.filterMap_cons, hh, Option.map_none]
            exact lookup_filterMap_keyed_none tl h c hout
        | some v =>
            simp only [List.filterMap_cons, hh, Option.map_some, List.lookup,
              beq_self_eq_true]
      · rcases List.mem_cons.mp hc with h1 | h1
        · exact absurd h1 he
        · have hck : (c == hd) = false := beq_eq_false_iff_ne.mpr he
          cases hh : h hd with
          | none =>
              simp only [List.filterMap_cons, hh, Option.map_none]
              exact ih hndtl h1
          | some v =>
              simp only [List.filterMap_cons, hh, Option.map_some, List.lookup, hck]
              exact ih hndtl h1

end LookupLemmas

/-- A category none of whose (promotion-filtered) rows lies in a baseline
zone has an empty baseline frame; in particular a category with no rows at
all is skipped by `compute_category_lifts`. -/
theorem catLiftsFor_eq_none_of_not_mem (fr : List Row) (c : String)
    (minSample : ℕ) (hc : c ∉ fr.map (·.category)) :
    catLiftsFor fr c minSample = none := by
  have hcat : catRows fr c = [] := by
    simp only [catRows]
    refine List.filter_eq_nil_iff.mpr ?_
    intro r hr hbeq
    exact hc (List.mem_map.mpr ⟨r, hr, eq_of_beq hbeq⟩)
  have : baselineRows fr c = [] := by
    rw [baselineRows, hcat]; rfl
  rw [catLiftsFor, baselineOfCore]
  simp [this]

/-- The association list produced by `compute_category_lifts` behaves, under
lookup, exactly like the per-category function `catLiftsFor`: categories with
no usable baseline (including unseen ones) are absent, the others map to
their three-zone lift dict. -/
theorem lookup_computeCore (fr : List Row) (minSample : ℕ) (c : String) :
    (computeCategoryLiftsCore fr minSample).lookup c = catLiftsFor fr c minSample := by
  by_cases hc : c ∈ (fr.map (·.category)).dedup
  · exact lookup_filterMap_keyed _ _ _ (List.nodup_dedup _) hc
  · exact (lookup_filterMap_keyed_none ((fr.map (·.category)).dedup)
      (fun k => catLiftsFor fr k minSample) c hc).trans
      (catLiftsFor_eq_none_of_not_mem fr c minSample
        (fun h => hc (List.mem_dedup.mpr h))).symm

/-- Lookup characterization of the resolver's category map when sales data
exists. -/
theorem lookup_mergeWithDefaults (m : List (String × List (String × RawZoneEntry)))
    (c : String) :
    (mergeWithDefaults m).lookup c =
      (INDUSTRY_DEFAULTS.lookup c).map (fun defs =>
        match m.lookup c with
        | some cz => mergeZones cz defs
        | none => allDefaults defs) := by
  exact lookup_map_keyed INDUSTRY_DEFAULTS
    (fun c v => match m.lookup c with
      | some cz => mergeZones cz v
      | none => allDefaults v) c

/-- Lookup characterization of the resolver's category map without sales
data. -/
theorem lookup_pureDefaults (c : String) :
    pureDefaults.lookup c = (INDUSTRY_DEFAULTS.lookup c).map allDefaults :=
  lookup_map_keyed INDUSTRY_DEFAULTS (fun _ v => allDefaults v) c

/-- Lookup characterization of a category's all-defaults zone dict. -/
theorem lookup_allDefaults (defs : List (String × ℚ)) (z : String) :
    (allDefaults defs).lookup z =
      (defs.lookup z).map (fun q =>
        { lift := some q, source := "industry_default",
          confidence := "low", sample_size := 0 }) :=
  lookup_map_keyed defs
    (fun _ v => ({ lift := some v, source := "industry_default",
                   confidence := "low", sample_size := 0 } : LiftEntry)) z

/-- Lookup characterization of a merged zone dict at a resolver zone. -/
theorem lookup_mergeZones (cz : List (String × RawZoneEntry))
    (defs : List (String × ℚ)) (z : String) (hz : z ∈ resolverZones) :
    (mergeZones cz defs).lookup z =
      some (resolveZone (cz.lookup z) ((defs.lookup z).getD 1)) :=
  lookup_map_self resolverZones _ z hz

/-- Lookup characterization of a merged zone dict off the resolver zones. -/
theorem lookup_mergeZones_none (cz : List (String × RawZoneEntry))
    (defs : List (String × ℚ)) (z : String) (hz : z ∉ resolverZones) :
    (mergeZones cz defs).lookup z = none :=
  lookup_map_self_none resolverZones _ z hz

/-- Lookup characterization of a computed category's three-zone dict. -/
theorem lookup_zoneDict (fr : List Row) (c : String) (b : ℚ) (minSample : ℕ)
    (z : String) (hz : z ∈ targetZones) :
    ((targetZones.map (fun z => (z, rawEntryFor fr c z b minSample))).lookup z) =
      some (rawEntryFor fr c z b minSample) :=
  lookup_map_self targetZones _ z hz

/-- Lookup characterization of a computed category's three-zone dict off the
target zones. -/
theorem lookup_zoneDict_none (fr : List Row) (c : String) (b : ℚ) (minSample : ℕ)
    (z : String) (hz : z ∉ targetZones) :
    ((targetZones.map (fun z => (z, rawEntryFor fr c z b minSample))).lookup z) = none :=
  lookup_map_self_none targetZones _ z hz

/-- A successful association-list lookup locates its pair in the list. -/
theorem mem_of_lookup_eq_some {α β : Type} [BEq α] [LawfulBEq α]
    {l : List (α × β)} {k : α} {v : β} (h : l.lookup k = some v) : (k, v) ∈ l := by
  induction l with
  | nil => cases h
  | cons hd tl ih =>
      obtain ⟨a, b⟩ := hd
      cases hck : k == a with
      | true =>
          simp only [List.lookup, hck] at h
          cases h
          exact (eq_of_beq hck) ▸ List.mem_cons_self _ _
      | false =>
          simp only [List.lookup, hck] at h
          exact List.mem_cons_of_mem _ (ih h)

/-- Lookup characterization of the whole resolver output when sales data
exists: a category resolves via its computed dict when the loader produced
one, else via all defaults; categories outside the catalog are absent. -/
theorem lookup_adaptive_some (rows : List Row) (minSample : ℕ) (c : String) :
    (adaptiveLifts (some rows) minSample).lookup c =
      (INDUSTRY_DEFAULTS.lookup c).map (fun defs =>
        match catLiftsFor (nonPromoted rows) c minSample with
        | some cz => mergeZones cz defs
        | none => allDefaults defs) := by
  rw [show adaptiveLifts (some rows) minSample
      = mergeWithDefaults (computeCategoryLifts rows minSample) from rfl,
    lookup_mergeWithDefaults,
    show computeCategoryLifts rows minSample
      = computeCategoryLiftsCore (nonPromoted rows) minSample from rfl,
    lookup_computeCore]

/-- With a nonzero baseline, the loader emits the three-zone dict. -/
theorem catLiftsFor_eq_some (fr : List Row) (c : String) (minSample : ℕ) (b : ℚ)
    (hb : baselineOfCore fr c = some b) (hb0 : b ≠ 0) :
    catLiftsFor fr c minSample =
      some (targetZones.map (fun z => (z, rawEntryFor fr c z b minSample))) := by
  simp only [catLiftsFor, hb, if_neg hb0]

/-- With an absent or zero baseline, the loader skips the category. -/
theorem catLiftsFor_eq_none_bad_baseline (fr : List Row) (c : String) (minSample : ℕ)
    (hb : baselineOfCore fr c = none ∨ baselineOfCore fr c = some 0) :
    catLiftsFor fr c minSample = none := by
  rcases hb with h | h
  · simp only [catLiftsFor, h]
  · simp [catLiftsFor, h]

/-- Every catalog category has a defaults row covering every resolver zone. -/
theorem catalog_lookup_some (c : String) (hc : c ∈ catalogCategories) :
    ∃ defs, INDUSTRY_DEFAULTS.lookup c = some defs ∧
      ∀ z ∈ resolverZones, ∃ q : ℚ, defs.lookup z = some q := by
  fin_cases hc <;>
    exact ⟨_, rfl, by intro z hz; fin_cases hz <;> exact ⟨_, rfl⟩⟩

/-- The canonical zone names are fixed points of the query normalization. -/
theorem normQuery_resolver (z : String) (hz : z ∈ resolverZones) : normQuery z = z := by
  fin_cases hz <;> rfl

/-- The three computed zones are among the four resolver zones. -/
theorem targetZones_subset_resolver (z : String) (hz : z ∈ targetZones) :
    z ∈ resolverZones := by
  fin_cases hz <;> decide

/-- The resolved entry of a catalog category with a usable baseline, at a
target zone queried by its canonical name. -/
theorem resolvedCell (rows : List Row) (minSample : ℕ) (c z : String)
    (defs : List (String × ℚ)) (b : ℚ)
    (hdef : INDUSTRY_DEFAULTS.lookup c = some defs)
    (hb : baselineMean rows c = some b) (hb0 : b ≠ 0)
    (hz : z ∈ targetZones) :
    getCategoryLift (adaptiveLifts (some rows) minSample) c z =
      resolveZone (some (rawEntryFor (nonPromoted rows) c z b minSample))
        ((defs.lookup z).getD 1) := by
  have hL := lookup_adaptive_some rows minSample c
  rw [hdef, Option.map_some',
    catLiftsFor_eq_some (nonPromoted rows) c minSample b hb hb0] at hL
  have hzr := targetZones_subset_resolver z hz
  have hzq : normQuery z = z := normQuery_resolver z hzr
  simp only [getCategoryLift, hL, hzq,
    lookup_mergeZones _ _ _ hzr, lookup_zoneDict _ _ _ _ _ hz]

/-- The resolver's decision on an insufficient-data loader entry. -/
theorem resolveZone_insufficient (fr : List Row) (c z : String) (b : ℚ)
    (minSample : ℕ) (q : ℚ) (hn : (zoneRowsCore fr c z).length < minSample) :
    resolveZone (some (rawEntryFor fr c z b minSample)) q =
      { lift := some q, source := "industry_default", confidence := "low",
        sample_size := (zoneRowsCore fr c z).length } := by
  simp only [rawEntryFor, if_pos hn]
  rfl

/-- The resolver's decision on a high-confidence computed loader entry. -/
theorem resolveZone_computed_high (fr : List Row) (c z : String) (b : ℚ)
    (minSample : ℕ) (q : ℚ) (hn : ¬ (zoneRowsCore fr c z).length < minSample)
    (h150 : 150 ≤ (zoneRowsCore fr c z).length) :
    resolveZone (some (rawEntryFor fr c z b minSample)) q =
      { lift := some (roundTo 2 (if 0 < b then meanUnits (zoneRowsCore fr c z) / b else 1)),
        source := "computed", confidence := "high",
        sample_size := (zoneRowsCore fr c z).length } := by
  simp only [rawEntryFor, if_neg hn, if_pos h150]
  rfl

/-- The resolver's decision on a medium-confidence computed loader entry. -/
theorem resolveZone_computed_medium (fr : List Row) (c z : String) (b : ℚ)
    (minSample : ℕ) (q : ℚ) (hn : ¬ (zoneRowsCore fr c z).length < minSample)
    (h150 : ¬ 150 ≤ (zoneRowsCore fr c z).length) :
    resolveZone (some (rawEntryFor fr c z b minSample)) q =
      { lift := some (roundTo 2 (if 0 < b then meanUnits (zoneRowsCore fr c z) / b else 1)),
        source := "computed", confidence := "medium",
        sample_size := (zoneRowsCore fr c z).length } := by
  simp only [rawEntryFor, if_neg hn, if_neg h150]
  rfl

/-- Every entry of an all-defaults zone dict is a zero-sample industry
default with a numeric lift. -/
theorem allDefaults_lookup_spec (defs : List (String × ℚ)) (z : String)
    (e : LiftEntry) (h : (allDefaults defs).lookup z = some e) :
    e.source = "industry_default" ∧ e.confidence = "low" ∧
    e.sample_size = 0 ∧ e.lift.isSome := by
  rw [lookup_allDefaults] at h
  cases hq : defs.lookup z with
  | none => rw [hq] at h; cases h
  | some q => rw [hq] at h; cases h; exact ⟨rfl, rfl, rfl, rfl⟩

/-- Lookup characterization of the zone-type-based location defaults. -/
theorem lookup_defaultLocPerf (meta : List (String × LocInfo)) (lid : String) :
    (defaultLocationPerformance meta).lookup lid =
      (meta.lookup lid).map
        (fun info => (zonePerformance.lookup (pyLower info.zone)).getD 100) :=
  lookup_map_keyed meta
    (fun _ info => (zonePerformance.lookup (pyLower info.zone)).getD 100) lid

/-- The "End Cap" / "endcap" queries agree on any category map that stores
no key `end_cap`: the first query misses on `end_cap` and retries with the
underscore removed, landing on the same lookup as the second. -/
theorem getCategoryLift_endcap_pair (L : List (String × List (String × LiftEntry)))
    (zs : List (String × LiftEntry)) (hL : L.lookup "Beverages" = some zs)
    (h : zs.lookup "end_cap" = none) :
    getCategoryLift L "Beverages" "End Cap" = getCategoryLift L "Beverages" "endcap" := by
  have e1 : normQuery "End Cap" = "end_cap" := rfl
  have e2 : normQuery "endcap" = "endcap" := rfl
  have e3 : dropChar "end_cap" '_' = "endcap" := rfl
  have e4 : dropChar "endcap" '_' = "endcap" := rfl
  simp only [getCategoryLift, hL, e1, e2, e3, e4, h]
  cases h2 : zs.lookup "endcap" <;> simp [h2]

/-- C1: for every (category, zone) pair in the fixed catalog of 5 known
categories and 4 zone types, and for every transaction dataset (including
the absent one, `sales = none`), querying `get_category_lift` after a
metric-computation run returns a record whose `source` is one of
{computed, industry_default, fallback} and whose `lift` is a number (never
`None`); the query itself is a total lookup and cannot raise.  The run's
configured `min_sample_size` is assumed positive, as in every shipped
configuration (default 30). -/
theorem c1_get_category_lift_total (sales : Option (List Row)) (minSample : ℕ)
    (hmin : 0 < minSample) (c z : String)
    (hc : c ∈ catalogCategories) (hz : z ∈ resolverZones) :
    ((getCategoryLift (adaptiveLifts sales minSample) c z).source = "computed" ∨
     (getCategoryLift (adaptiveLifts sales minSample) c z).source = "industry_default" ∨
     (getCategoryLift (adaptiveLifts sales minSample) c z).source = "fallback") ∧
    (getCategoryLift (adaptiveLifts sales minSample) c z).lift.isSome := by
  obtain ⟨defs, hdef, hall⟩ := catalog_lookup_some c hc
  obtain ⟨q, hq⟩ := hall z hz
  have hzq := normQuery_resolver z hz
  cases sales with
  | none =>
      have hL : (adaptiveLifts none minSample).lookup c = some (allDefaults defs) := by
        rw [show adaptiveLifts none minSample = pureDefaults from rfl,
          lookup_pureDefaults, hdef, Option.map_some']
      simp only [getCategoryLift, hL, hzq, lookup_allDefaults, hq, Option.map_some']
      exact ⟨Or.inr (Or.inl (by simp)), by simp⟩
  | some rows =>
      rcases hbase : baselineOfCore (nonPromoted rows) c with _ | b
      · have hL : (adaptiveLifts (some rows) minSample).lookup c
            = some (allDefaults defs) := by
          rw [lookup_adaptive_some, hdef, Option.map_some',
            catLiftsFor_eq_none_bad_baseline _ _ _ (Or.inl hbase)]
        simp only [getCategoryLift, hL, hzq, lookup_allDefaults, hq, Option.map_some']
        exact ⟨Or.inr (Or.inl (by simp)), by simp⟩
      · by_cases hb0 : b = 0
        · subst hb0
          have hL : (adaptiveLifts (some rows) minSample).lookup c
              = some (allDefaults defs) := by
            rw [lookup_adaptive_some, hdef, Option.map_some',
              catLiftsFor_eq_none_bad_baseline _ _ _ (Or.inr hbase)]
          simp only [getCategoryLift, hL, hzq, lookup_allDefaults, hq, Option.map_some']
          exact ⟨Or.inr (Or.inl (by simp)), by simp⟩
        · by_cases hzt : z ∈ targetZones
          · rw [resolvedCell rows minSample c z defs b hdef hbase hb0 hzt]
            by_cases hn : (zoneRowsCore (nonPromoted rows) c z).length < minSample
            · rw [resolveZone_insufficient _ _ _ _ _ _ hn]
              exact ⟨Or.inr (Or.inl rfl), rfl⟩
            · by_cases h150 : 150 ≤ (zoneRowsCore (nonPromoted rows) c z).length
              · rw [resolveZone_computed_high _ _ _ _ _ _ hn h150]
                exact ⟨Or.inl rfl, rfl⟩
              · rw [resolveZone_computed_medium _ _ _ _ _ _ hn h150]
                exact ⟨Or.inl rfl, rfl⟩
          · have hL := lookup_adaptive_some rows minSample c
            rw [hdef, Option.map_some',
              catLiftsFor_eq_some _ _ _ b hbase hb0] at hL
            simp only [getCategoryLift, hL, hzq, lookup_mergeZones _ _ _ hz,
              lookup_zoneDict_none _ _ _ _ _ hzt]
            exact ⟨Or.inr (Or.inl rfl), rfl⟩

/-- Witness for C1 at a concrete input: the Beverages/endcap cell of a run
with no sales data. -/
theorem c1_get_category_lift_total_witness :
    (0 : ℕ) < 30 ∧ "Beverages" ∈ catalogCategories ∧ "endcap" ∈ resolverZones ∧
    (((getCategoryLift (adaptiveLifts none 30) "Beverages" "endcap").source = "computed" ∨
      (getCategoryLift (adaptiveLifts none 30) "Beverages" "endcap").source = "industry_default" ∨
      (getCategoryLift (adaptiveLifts none 30) "Beverages" "endcap").source = "fallback") ∧
     (getCategoryLift (adaptiveLifts none 30) "Beverages" "endcap").lift.isSome) :=
  ⟨by decide, by decide, by decide,
    c1_get_category_lift_total none 30 (by decide) "Beverages" "endcap"
      (by decide) (by decide)⟩

/-- C2: for a computed (category, zone) cell — a catalog category with a
usable baseline, at a target zone — the resolved confidence is `high` iff
the observed sample count is at least 150, `medium` iff it lies in
[min_sample_size, 150), and a count below `min_sample_size` makes the loader
mark the cell `insufficient_data`, which the resolver replaces by the
industry default with confidence `low`.  The configured threshold is assumed
positive and at most 150, as in every shipped configuration (default 30). -/
theorem c2_confidence_tiers (rows : List Row) (minSample : ℕ) (c z : String)
    (hmin0 : 0 < minSample) (hmin : minSample ≤ 150)
    (hc : c ∈ catalogCategories) (hz : z ∈ targetZones) (b : ℚ)
    (hb : baselineMean rows c = some b) (hb0 : b ≠ 0) :
    ((getCategoryLift (adaptiveLifts (some rows) minSample) c z).confidence = "high" ↔
        150 ≤ zoneSampleCount rows c z) ∧
    ((getCategoryLift (adaptiveLifts (some rows) minSample) c z).confidence = "medium" ↔
        (minSample ≤ zoneSampleCount rows c z ∧ zoneSampleCount rows c z < 150)) ∧
    (zoneSampleCount rows c z < minSample →
        rawLiftEntry rows minSample c z =
          some { lift := none, confidence := "low",
                 sample_size := zoneSampleCount rows c z,
                 source := "insufficient_data",
                 baseline_sales := none, zone_sales := none } ∧
        (getCategoryLift (adaptiveLifts (some rows) minSample) c z).source
          = "industry_default" ∧
        (getCategoryLift (adaptiveLifts (some rows) minSample) c z).confidence
          = "low") := by
  obtain ⟨defs, hdef, -⟩ := catalog_lookup_some c hc
  have hcell := resolvedCell rows minSample c z defs b hdef hb hb0 hz
  have hraw : rawLiftEntry rows minSample c z =
      some (rawEntryFor (nonPromoted rows) c z b minSample) := by
    rw [rawLiftEntry,
      show computeCategoryLifts rows minSample
        = computeCategoryLiftsCore (nonPromoted rows) minSample from rfl,
      lookup_computeCore, catLiftsFor_eq_some (nonPromoted rows) c minSample b hb hb0,
      Option.some_bind, lookup_zoneDict _ _ _ _ _ hz]
  by_cases hlt : zoneSampleCount rows c z < minSample
  · have hlt' : (zoneRowsCore (nonPromoted rows) c z).length < minSample := hlt
    rw [hcell, resolveZone_insufficient _ _ _ _ _ _ hlt]
    refine ⟨⟨fun h => by simp at h,
        fun h => absurd hlt (Nat.not_lt.mpr (le_trans hmin h))⟩,
      ⟨fun h => by simp at h,
        fun h => absurd hlt (Nat.not_lt.mpr h.1)⟩,
      fun _ => ⟨?_, rfl, rfl⟩⟩
    rw [hraw]
    simp only [rawEntryFor, if_pos hlt']
    rfl
  · by_cases h150 : 150 ≤ zoneSampleCount rows c z
    · rw [hcell, resolveZone_computed_high _ _ _ _ _ _ hlt h150]
      exact ⟨⟨fun _ => h150, fun _ => rfl⟩,
        ⟨fun h => by simp at h,
          fun h => absurd h150 (Nat.not_le.mpr h.2)⟩,
        fun h2 => absurd h2 hlt⟩
    · rw [hcell, resolveZone_computed_medium _ _ _ _ _ _ hlt h150]
      exact ⟨⟨fun h => by simp at h, fun h => absurd h h150⟩,
        ⟨fun _ => ⟨Nat.not_lt.mp hlt, Nat.lt_of_not_le h150⟩, fun _ => rfl⟩,
        fun h2 => absurd h2 hlt⟩

/-- Witness for C2 at a concrete input: the Dairy/checkout cell of
`dairyRows` (baseline mean 10, sample count 10 < 30). -/
theorem c2_confidence_tiers_witness :
    (0 : ℕ) < 30 ∧ (30 : ℕ) ≤ 150 ∧ "Dairy" ∈ catalogCategories ∧
    "checkout" ∈ targetZones ∧ baselineMean dairyRows "Dairy" = some 10 ∧
    (10 : ℚ) ≠ 0 ∧
    (((getCategoryLift (adaptiveLifts (some dairyRows) 30) "Dairy" "checkout").confidence = "high" ↔
        150 ≤ zoneSampleCount dairyRows "Dairy" "checkout") ∧
     ((getCategoryLift (adaptiveLifts (some dairyRows) 30) "Dairy" "checkout").confidence = "medium" ↔
        (30 ≤ zoneSampleCount dairyRows "Dairy" "checkout" ∧
         zoneSampleCount dairyRows "Dairy" "checkout" < 150)) ∧
     (zoneSampleCount dairyRows "Dairy" "checkout" < 30 →
        rawLiftEntry dairyRows 30 "Dairy" "checkout" =
          some { lift := none, confidence := "low",
                 sample_size := zoneSampleCount dairyRows "Dairy" "checkout",
                 source := "insufficient_data",
                 baseline_sales := none, zone_sales := none } ∧
        (getCategoryLift (adaptiveLifts (some dairyRows) 30) "Dairy" "checkout").source
          = "industry_default" ∧
        (getCategoryLift (adaptiveLifts (some dairyRows) 30) "Dairy" "checkout").confidence
          = "low")) := by
  have hb : baselineMean dairyRows "Dairy" = some 10 := by with_unfolding_all decide
  exact ⟨by decide, by decide, by decide, by decide, hb, by norm_num,
    c2_confidence_tiers dairyRows 30 "Dairy" "checkout" (by decide) (by decide)
      (by decide) (by decide) 10 hb (by norm_num)⟩

/-- C3 counterexample: two datasets that differ only in a promoted
transaction's `units_sold` (their non-promoted rows are identical) produce
different location-performance indices for L2 —
`compute_location_performance` does not filter promoted transactions, so the
claim, which asserts identical location performance as well, is false. -/
theorem c3_promotion_exclusion_refuted :
    nonPromoted promoD1 = nonPromoted promoD2 ∧
    getLocationPerformance (computeLocationPerformance promoD1) "L2" ≠
      getLocationPerformance (computeLocationPerformance promoD2) "L2" :=
  ⟨rfl, by with_unfolding_all decide⟩

/-- C3 as amended: datasets that agree on their non-promoted rows produce
identical computed category-lift tables and an identical resolved lift map;
promoted transactions do, however, influence the location-performance
index (see the counterexample). -/
theorem c3_promotion_exclusion_lifts (d₁ d₂ : List Row) (minSample : ℕ)
    (h : nonPromoted d₁ = nonPromoted d₂) :
    computeCategoryLifts d₁ minSample = computeCategoryLifts d₂ minSample ∧
    adaptiveLifts (some d₁) minSample = adaptiveLifts (some d₂) minSample := by
  have h1 : computeCategoryLifts d₁ minSample = computeCategoryLifts d₂ minSample := by
    simp only [computeCategoryLifts, h]
  exact ⟨h1, by simp only [adaptiveLifts, h1]⟩

/-- Witness for C3 at a concrete input: the two promotion datasets of the
counterexample agree on non-promoted rows, hence on the lift tables. -/
theorem c3_promotion_exclusion_lifts_witness :
    nonPromoted promoD1 = nonPromoted promoD2 ∧
    adaptiveLifts (some promoD1) 30 = adaptiveLifts (some promoD2) 30 :=
  ⟨rfl, (c3_promotion_exclusion_lifts promoD1 promoD2 30 rfl).2⟩

/-- C4: a category whose (promotion-filtered) transactions contain no
baseline-zone record, or whose baseline mean of units_sold is zero, is
skipped by the metric computer, so no cell of that category resolves with
`source = computed`: every query for it returns an industry default or the
neutral fallback, regardless of how much non-baseline data exists. -/
theorem c4_baseline_sensitivity (rows : List Row) (minSample : ℕ) (c : String)
    (hb : baselineMean rows c = none ∨ baselineMean rows c = some 0) (z : String) :
    (getCategoryLift (adaptiveLifts (some rows) minSample) c z).source
        = "industry_default" ∨
    (getCategoryLift (adaptiveLifts (some rows) minSample) c z).source
        = "fallback" := by
  cases hdef : INDUSTRY_DEFAULTS.lookup c with
  | none =>
      have hL : (adaptiveLifts (some rows) minSample).lookup c = none := by
        rw [lookup_adaptive_some, hdef, Option.map_none']
      simp only [getCategoryLift, hL]
      exact Or.inr rfl
  | some defs =>
      have hL : (adaptiveLifts (some rows) minSample).lookup c
          = some (allDefaults defs) := by
        rw [lookup_adaptive_some, hdef, Option.map_some',
          catLiftsFor_eq_none_bad_baseline _ _ _ hb]
      simp only [getCategoryLift, hL]
      cases h1 : (allDefaults defs).lookup (normQuery z) with
      | some e =>
          simp only [h1]
          exact Or.inl (allDefaults_lookup_spec defs _ e h1).1
      | none =>
          simp only [h1]
          cases h2 : (allDefaults defs).lookup (dropChar (normQuery z) '_') with
          | some e =>
              simp only [h2]
              exact Or.inl (allDefaults_lookup_spec defs _ e h2).1
          | none =>
              simp only [h2]
              exact Or.inr rfl

/-- Witness for C4 at a concrete input: 50 Dairy endcap rows with no
baseline rows at all. -/
theorem c4_baseline_sensitivity_witness :
    (baselineMean noBaseRows "Dairy" = none ∨ baselineMean noBaseRows "Dairy" = some 0) ∧
    ((getCategoryLift (adaptiveLifts (some noBaseRows) 30) "Dairy" "endcap").source
        = "industry_default" ∨
     (getCategoryLift (adaptiveLifts (some noBaseRows) 30) "Dairy" "endcap").source
        = "fallback") := by
  have hb : baselineMean noBaseRows "Dairy" = none := by with_unfolding_all decide
  exact ⟨Or.inl hb, c4_baseline_sensitivity noBaseRows 30 "Dairy" (Or.inl hb) "endcap"⟩

/-- C5: a cell resolved to an industry default because its observed sample
count fell below `min_sample_size` carries the actually observed count (not
0): the whole returned record is the category's static default lift with
`source = industry_default`, `confidence = low`, and the observed
`sample_size`. -/
theorem c5_insufficient_sample_size (rows : List Row) (minSample : ℕ) (c z : String)
    (hc : c ∈ catalogCategories) (hz : z ∈ targetZones) (b : ℚ)
    (hb : baselineMean rows c = some b) (hb0 : b ≠ 0)
    (hn : zoneSampleCount rows c z < minSample) :
    getCategoryLift (adaptiveLifts (some rows) minSample) c z =
      { lift := some (defaultLiftFor c z), source := "industry_default",
        confidence := "low", sample_size := zoneSampleCount rows c z } := by
  obtain ⟨defs, hdef, -⟩ := catalog_lookup_some c hc
  rw [resolvedCell rows minSample c z defs b hdef hb hb0 hz,
    resolveZone_insufficient _ _ _ _ _ _ hn]
  simp [defaultLiftFor, hdef, zoneSampleCount]

/-- Witness for C5 at the spec's concrete scenario: exactly 10 non-promoted
Dairy/checkout transactions (plus baseline rows) with `min_sample_size = 30`
yield `source = industry_default`, the static Dairy/checkout lift 1.0, and
`sample_size = 10`, not 0. -/
theorem c5_insufficient_sample_size_witness :
    "Dairy" ∈ catalogCategories ∧ "checkout" ∈ targetZones ∧
    baselineMean dairyRows "Dairy" = some 10 ∧ (10 : ℚ) ≠ 0 ∧
    zoneSampleCount dairyRows "Dairy" "checkout" = 10 ∧
    zoneSampleCount dairyRows "Dairy" "checkout" < 30 ∧
    getCategoryLift (adaptiveLifts (some dairyRows) 30) "Dairy" "checkout" =
      { lift := some 1.0, source := "industry_default", confidence := "low",
        sample_size := 10 } := by
  have hb : baselineMean dairyRows "Dairy" = some 10 := by with_unfolding_all decide
  have hn : zoneSampleCount dairyRows "Dairy" "checkout" = 10 := by decide
  have hfin : getCategoryLift (adaptiveLifts (some dairyRows) 30) "Dairy" "checkout" =
      { lift := some 1.0, source := "industry_default", confidence := "low",
        sample_size := 10 } :=
    (c5_insufficient_sample_size dairyRows 30 "Dairy" "checkout" (by decide) (by decide)
      10 hb (by norm_num) (by decide)).trans (by with_unfolding_all decide)
  exact ⟨by decide, by decide, hb, by norm_num, hn, by decide, hfin⟩

/-- C6 counterexample: schema validation inspects column names only — a CSV
with all required columns whose row has negative `units_sold` passes
validation, so the loader does not validate that units and revenue are
non-negative, contrary to the claim. -/
theorem c6_schema_validation_refuted :
    negRow ∈ negCSV.rows ∧ negRow.units_sold < 0 ∧
    validateSchema negCSV = Except.ok () :=
  ⟨List.mem_singleton.mpr rfl, by decide, rfl⟩

/-- C6 as amended: loading a source missing required fields fails with an
error naming exactly the missing columns; validation never inspects row
values (so no non-negativity check exists); and `AdaptiveDataManager`
catches loader failures, proceeding with no sales loader, so even a schema
error does not propagate out of the manager. -/
theorem c6_schema_validation :
    (∀ t : SalesCSV, validateSchema t = Except.ok () ↔
        ∀ col ∈ requiredColumns, col ∈ t.columns) ∧
    (∀ t missing, validateSchema t = Except.error missing →
        missing ≠ [] ∧ ∀ col, col ∈ missing ↔ col ∈ requiredColumns ∧ col ∉ t.columns) ∧
    (∀ cols r₁ r₂, validateSchema ⟨cols, r₁⟩ = validateSchema ⟨cols, r₂⟩) ∧
    (∀ t, validateSchema t ≠ Except.ok () → initSalesLoader (some t) = none) := by
  refine ⟨?_, ?_, fun cols r₁ r₂ => rfl, ?_⟩
  · intro t
    simp only [validateSchema]
    split_ifs with h
    · simp only [List.isEmpty_iff, List.filter_eq_nil_iff] at h
      simp only [true_iff]
      intro col hcol
      have := h col hcol
      simpa using this
    · simp only [List.isEmpty_iff, List.filter_eq_nil_iff] at h
      constructor
      · intro he; cases he
      · intro hall
        exact absurd (fun col hcol => by simpa using hall col hcol) h
  · intro t missing hmiss
    simp only [validateSchema] at hmiss
    by_cases h : (requiredColumns.filter (fun c => !t.columns.contains c)).isEmpty
    · rw [if_pos h] at hmiss; cases hmiss
    · rw [if_neg h] at hmiss
      cases hmiss
      exact ⟨fun he => h (List.isEmpty_iff.mpr he),
        fun col => by simp [List.mem_filter]⟩
  · intro t hne
    simp only [initSalesLoader]
    cases hv : validateSchema t with
    | ok u => cases u; exact absurd hv hne
    | error e => rfl

/-- Witness for C6 at a concrete input: a CSV missing `revenue` produces an
error naming it, and the manager swallows the failure. -/
theorem c6_schema_validation_witness :
    validateSchema missingCSV = Except.error ["revenue"] ∧
    initSalesLoader (some missingCSV) = none := by
  refine ⟨rfl, c6_schema_validation.2.2.2 missingCSV ?_⟩
  intro h
  exact absurd ((c6_schema_validation.1 missingCSV).mp h "revenue" (by decide))
    (by decide)

/-- C7: the data-quality assessment is an exact step function of the total
transaction count — at least 3000 gives `excellent`, at least 1000 `good`,
at least 500 `fair`, fewer than 500 `poor`; in particular 3000 gives
excellent, 999 gives fair, and a loaded-but-empty dataset yields
`poor` with `confidence_score = 0.50` in the metadata. -/
theorem c7_quality_thresholds (n : ℕ) :
    ((assessDataQuality n).quality_level = "excellent" ↔ 3000 ≤ n) ∧
    ((assessDataQuality n).quality_level = "good" ↔ 1000 ≤ n ∧ n < 3000) ∧
    ((assessDataQuality n).quality_level = "fair" ↔ 500 ≤ n ∧ n < 1000) ∧
    ((assessDataQuality n).quality_level = "poor" ↔ n < 500) ∧
    ((assessDataQuality n).confidence_score = 0.50 ↔ n < 500) ∧
    (assessDataQuality 3000).quality_level = "excellent" ∧
    (assessDataQuality 999).quality_level = "fair" ∧
    dataQualityMeta (some []) = some (assessDataQuality 0) ∧
    (assessDataQuality 0).quality_level = "poor" ∧
    (assessDataQuality 0).confidence_score = 0.50 := by
  have h95 : (0.95 : ℚ) ≠ 0.50 := by norm_num
  have h85 : (0.85 : ℚ) ≠ 0.50 := by norm_num
  have h70 : (0.70 : ℚ) ≠ 0.50 := by norm_num
  refine ⟨?_, ?_, ?_, ?_, ?_, by with_unfolding_all decide,
    by with_unfolding_all decide, rfl, by with_unfolding_all decide,
    by with_unfolding_all decide⟩ <;>
    simp only [assessDataQuality] <;> split_ifs <;> simp_all <;> omega

/-- C8 counterexample: `"eye_level"` and `"eyelevel"` denote the same zone
under the claimed case/space/underscore normalization, yet after a run with
no sales data `get_category_lift` returns the stored industry-default record
for the first and the neutral fallback for the second — the query
normalization is not identical to the metric computer's. -/
theorem c8_zone_normalization_refuted :
    normCaseSpaceUnderscore "eye_level" = normCaseSpaceUnderscore "eyelevel" ∧
    getCategoryLift (adaptiveLifts none 30) "Beverages" "eye_level" ≠
      getCategoryLift (adaptiveLifts none 30) "Beverages" "eyelevel" :=
  ⟨rfl, by with_unfolding_all decide⟩

/-- C8 as amended: `get_category_lift` depends on the zone argument only
through its own normalization (lowercase, spaces to underscores, with an
underscore-stripped retry), so any two query strings with the same
normalization — and, in particular, the claim's pair
`"End Cap"` / `"endcap"` — return identical records in every reachable
state; but that normalization differs from the metric computer's (see the
counterexample for `"eyelevel"` vs `"eye_level"`). -/
theorem c8_zone_normalization :
    (∀ (L : List (String × List (String × LiftEntry))) (c z₁ z₂ : String),
        normQuery z₁ = normQuery z₂ →
        getCategoryLift L c z₁ = getCategoryLift L c z₂) ∧
    (∀ (sales : Option (List Row)) (minSample : ℕ),
        getCategoryLift (adaptiveLifts sales minSample) "Beverages" "End Cap" =
        getCategoryLift (adaptiveLifts sales minSample) "Beverages" "endcap") := by
  constructor
  · intro L c z₁ z₂ h
    simp only [getCategoryLift, h]
  · intro sales minSample
    have hbev : INDUSTRY_DEFAULTS.lookup "Beverages" =
        some [("endcap", 1.4), ("eye_level", 1.15), ("checkout", 1.3), ("low_shelf", 0.85)] := rfl
    cases sales with
    | none =>
        refine getCategoryLift_endcap_pair _
          (allDefaults [("endcap", 1.4), ("eye_level", 1.15), ("checkout", 1.3), ("low_shelf", 0.85)]) ?_ rfl
        rw [show adaptiveLifts none minSample = pureDefaults from rfl,
          lookup_pureDefaults, hbev]
        rfl
    | some rows =>
        rw [show adaptiveLifts (some rows) minSample =
          mergeWithDefaults (computeCategoryLifts rows minSample) from rfl]
        cases hM : (computeCategoryLifts rows minSample).lookup "Beverages" with
        | none =>
            refine getCategoryLift_endcap_pair _
              (allDefaults [("endcap", 1.4), ("eye_level", 1.15), ("checkout", 1.3), ("low_shelf", 0.85)]) ?_ rfl
            rw [lookup_mergeWithDefaults, hM, hbev]
            rfl
        | some cz =>
            refine getCategoryLift_endcap_pair _
              (mergeZones cz [("endcap", 1.4), ("eye_level", 1.15), ("checkout", 1.3), ("low_shelf", 0.85)]) ?_
              (lookup_mergeZones_none cz _ "end_cap" (by decide))
            rw [lookup_mergeWithDefaults, hM, hbev]
            rfl

/-- Witness for C8 at a concrete input: `"End Cap"` and `"end cap"`
normalize identically, so their queries agree on the no-sales state. -/
theorem c8_zone_normalization_witness :
    normQuery "End Cap" = normQuery "end cap" ∧
    getCategoryLift (adaptiveLifts none 30) "Beverages" "End Cap" =
      getCategoryLift (adaptiveLifts none 30) "Beverages" "end cap" :=
  ⟨rfl, c8_zone_normalization.1 (adaptiveLifts none 30) "Beverages" "End Cap" "end cap" rfl⟩

/-- C9 counterexample: with a loaded-but-empty transaction set, the manager
takes the computed branch, the performance map is empty, and L005 — declared
an `endcap` location whose static index is 150 — gets 100.0, contradicting
the claim that 100.0 is returned only for unknown zone types or absent
locations. -/
theorem c9_location_defaults_refuted :
    locMeta1.lookup "L005" =
      some { zone := "endcap", zone_name := "End Cap Display", traffic_index := 150 } ∧
    zonePerformance.lookup (pyLower "endcap") = some 150 ∧
    getLocationPerformance (locationPerformanceOf (some []) locMeta1) "L005" = 100 ∧
    (100 : ℚ) ≠ 150 :=
  ⟨rfl, rfl, rfl, by norm_num⟩

/-- C9 as amended: when no sales loader exists, `get_location_performance`
returns the static zone-type index of the location's declared (lowercased)
zone type, and 100.0 exactly when the zone type is outside the static table
or the location is absent from the metadata; when a loader exists but holds
zero transactions, the computed map is empty and every location gets 100.0.
The lookup is total and never raises. -/
theorem c9_location_defaults :
    (∀ meta lid info v, meta.lookup lid = some info →
        zonePerformance.lookup (pyLower info.zone) = some v →
        getLocationPerformance (locationPerformanceOf none meta) lid = v) ∧
    (∀ meta lid info, meta.lookup lid = some info →
        zonePerformance.lookup (pyLower info.zone) = none →
        getLocationPerformance (locationPerformanceOf none meta) lid = 100) ∧
    (∀ meta lid, meta.lookup lid = none →
        getLocationPerformance (locationPerformanceOf none meta) lid = 100) ∧
    (∀ meta lid, getLocationPerformance (locationPerformanceOf (some []) meta) lid = 100) := by
  refine ⟨?_, ?_, ?_, fun meta lid => rfl⟩
  · intro meta lid info v h1 h2
    simp only [locationPerformanceOf, getLocationPerformance,
      lookup_defaultLocPerf, h1, h2, Option.map_some', Option.getD_some]
  · intro meta lid info h1 h2
    simp only [locationPerformanceOf, getLocationPerformance,
      lookup_defaultLocPerf, h1, h2, Option.map_some', Option.getD_some,
      Option.getD_none]
  · intro meta lid h1
    simp only [locationPerformanceOf, getLocationPerformance,
      lookup_defaultLocPerf, h1, Option.map_none', Option.getD_none]

/-- Witness for C9 at a concrete input: with no sales loader, the declared
endcap location L005 gets the static index 150. -/
theorem c9_location_defaults_witness :
    locMeta1.lookup "L005" =
      some { zone := "endcap", zone_name := "End Cap Display", traffic_index := 150 } ∧
    getLocationPerformance (locationPerformanceOf none locMeta1) "L005" = 150 :=
  ⟨rfl, c9_location_defaults.1 locMeta1 "L005" _ 150 rfl rfl⟩

/-- C10: for every transaction dataset (and with no dataset at all) and
every category, the resolved `low_shelf` cell is never `computed`: the
metric computer only produces lifts for endcap, checkout and eye_level, so
`get_category_lift` at `low_shelf` returns an industry default with
`sample_size = 0` for catalog categories and the neutral fallback
otherwise. -/
theorem c10_low_shelf_never_computed (sales : Option (List Row)) (minSample : ℕ)
    (c : String) :
    ((getCategoryLift (adaptiveLifts sales minSample) c "low_shelf").source
        = "industry_default" ∧
     (getCategoryLift (adaptiveLifts sales minSample) c "low_shelf").sample_size = 0) ∨
    (getCategoryLift (adaptiveLifts sales minSample) c "low_shelf").source
        = "fallback" := by
  have hzq : normQuery "low_shelf" = "low_shelf" := rfl
  cases hdef : INDUSTRY_DEFAULTS.lookup c with
  | none =>
      cases sales with
      | none =>
          have hL : (adaptiveLifts none minSample).lookup c = none := by
            rw [show adaptiveLifts none minSample = pureDefaults from rfl,
              lookup_pureDefaults, hdef, Option.map_none']
          simp only [getCategoryLift, hL]
          exact Or.inr rfl
      | some rows =>
          have hL : (adaptiveLifts (some rows) minSample).lookup c = none := by
            rw [lookup_adaptive_some, hdef, Option.map_none']
          simp only [getCategoryLift, hL]
          exact Or.inr rfl
  | some defs =>
      have hmem := mem_of_lookup_eq_some hdef
      have hq : ∃ q : ℚ, defs.lookup "low_shelf" = some q := by
        simp only [INDUSTRY_DEFAULTS, List.mem_cons, List.not_mem_nil, or_false,
          Prod.mk.injEq] at hmem
        rcases hmem with ⟨-, rfl⟩ | ⟨-, rfl⟩ | ⟨-, rfl⟩ | ⟨-, rfl⟩ | ⟨-, rfl⟩ <;>
          exact ⟨_, rfl⟩
      obtain ⟨q, hq⟩ := hq
      cases sales with
      | none =>
          have hL : (adaptiveLifts none minSample).lookup c = some (allDefaults defs) := by
            rw [show adaptiveLifts none minSample = pureDefaults from rfl,
              lookup_pureDefaults, hdef, Option.map_some']
          simp only [getCategoryLift, hL, hzq, lookup_allDefaults, hq, Option.map_some']
          exact Or.inl ⟨by simp, by simp⟩
      | some rows =>
          rcases hbase : baselineOfCore (nonPromoted rows) c with _ | b
          · have hL : (adaptiveLifts (some rows) minSample).lookup c
                = some (allDefaults defs) := by
              rw [lookup_adaptive_some, hdef, Option.map_some',
                catLiftsFor_eq_none_bad_baseline _ _ _ (Or.inl hbase)]
            simp only [getCategoryLift, hL, hzq, lookup_allDefaults, hq, Option.map_some']
            exact Or.inl ⟨by simp, by simp⟩
          · by_cases hb0 : b = 0
            · subst hb0
              have hL : (adaptiveLifts (some rows) minSample).lookup c
                  = some (allDefaults defs) := by
                rw [lookup_adaptive_some, hdef, Option.map_some',
                  catLiftsFor_eq_none_bad_baseline _ _ _ (Or.inr hbase)]
              simp only [getCategoryLift, hL, hzq, lookup_allDefaults, hq,
                Option.map_some']
              exact Or.inl ⟨by simp, by simp⟩
            · have hL := lookup_adaptive_some rows minSample c
              rw [hdef, Option.map_some',
                catLiftsFor_eq_some _ _ _ b hbase hb0] at hL
              simp only [getCategoryLift, hL, hzq,
                lookup_mergeZones _ _ _ (by decide : "low_shelf" ∈ resolverZones),
                lookup_zoneDict_none _ _ _ _ _ (by decide : "low_shelf" ∉ targetZones)]
              exact Or.inl ⟨rfl, rfl⟩
